import Mathlib

/-!
Shallow embedding of the quotaservice configuration model and admin
dispatcher (packages `config` and `admin`, proto package
`quotaservice.configs`).

Go strings are modelled as lists of characters (`GoString`), Go `int`,
`int32` and `int64` as `Int` with explicit 32-bit wrapping (`toInt32`)
where the source converts to `int32`.  Go maps are modelled as
association lists (`GoMap`) with Go's assignment semantics
(`goMapInsert`: overwrite an existing key in place, otherwise append).
Nil pointers become `Option`; a function that can panic or return an
error returns `Except`.
-/

set_option linter.unusedVariables false

abbrev GoString := List Char

def gs (s : String) : GoString := s.toList

abbrev GoMap (α : Type) := List (GoString × α)

/-- Go map assignment `m[k] = v`: overwrite the entry for `k` if present,
otherwise add a new entry. -/
def goMapInsert {α : Type} : GoMap α → GoString → α → GoMap α
  | [], k, v => [(k, v)]
  | (k', v') :: rest, k, v =>
    if k' = k then (k, v) :: rest else (k', v') :: goMapInsert rest k v

/-- Go map lookup `m[k]`, `nil` (absent) modelled as `none`. -/
def goMapGet {α : Type} : GoMap α → GoString → Option α
  | [], _ => none
  | (k, v) :: rest, key => if k = key then some v else goMapGet rest key

/-- Conversion of a Go integer to `int32`: wrap into `[-2^31, 2^31)`. -/
def toInt32 (v : Int) : Int := (v + 2147483648) % 4294967296 - 2147483648

/-- Sentinel namespace name for the global default bucket (config.go). -/
def GlobalNamespace : GoString := gs "___GLOBAL___"

/-- Sentinel bucket name for default buckets (config.go). -/
def DefaultBucketName : GoString := gs "___DEFAULT_BUCKET___"

/-- Sentinel bucket name for dynamic bucket templates (config.go). -/
def DynamicBucketTemplateName : GoString := gs "___DYNAMIC_BUCKET_TPL___"

namespace pb

/-- Proto message `quotaservice.configs.BucketConfig` (configs.proto). -/
structure BucketConfig where
  name : GoString
  size : Int
  fillRate : Int
  waitTimeoutMillis : Int
  maxIdleMillis : Int
  maxDebtMillis : Int
  maxTokensPerRequest : Int
deriving DecidableEq, Repr

/-- Proto message `quotaservice.configs.NamespaceConfig` (configs.proto). -/
structure NamespaceConfig where
  name : GoString
  defaultBucket : Option BucketConfig
  dynamicBucketTemplate : Option BucketConfig
  maxDynamicBuckets : Int
  buckets : List BucketConfig
deriving DecidableEq, Repr

/-- Proto message `quotaservice.configs.ServiceConfig` (configs.proto). -/
structure ServiceConfig where
  globalDefaultBucket : Option BucketConfig
  namespaces : List NamespaceConfig
  version : Int
deriving DecidableEq, Repr

end pb

namespace config

/-- `config.BucketConfig` (config.go).  The unexported `namespace`
back-pointer is modelled as the owning namespace's name
(`namespaceName`), its only use in the source being `FQN()` which reads
`b.namespace.Name`. -/
structure BucketConfig where
  size : Int
  fillRate : Int
  waitTimeoutMillis : Int
  maxIdleMillis : Int
  maxDebtMillis : Int
  maxTokensPerRequest : Int
  namespaceName : Option GoString
  name : GoString
deriving DecidableEq, Repr

/-- `config.NamespaceConfig` (config.go).  `Buckets` is a Go map that
may be nil, hence `Option`. -/
structure NamespaceConfig where
  defaultBucket : Option BucketConfig
  dynamicBucketTemplate : Option BucketConfig
  maxDynamicBuckets : Int
  buckets : Option (GoMap BucketConfig)
  name : GoString
deriving DecidableEq, Repr

/-- `config.ServiceConfig` (config.go). -/
structure ServiceConfig where
  globalDefaultBucket : Option BucketConfig
  namespaces : GoMap NamespaceConfig
  version : Int
deriving DecidableEq, Repr

/-- `BucketConfig.ApplyDefaults` (config.go lines 213-239): each numeric
field is replaced by its default exactly when it is zero; the
`MaxTokensPerRequest` default reads `b.FillRate` after the fill rate has
already been defaulted. -/
def BucketConfig.applyDefaults (b : BucketConfig) : BucketConfig :=
  let size := if b.size = 0 then 100 else b.size
  let fillRate := if b.fillRate = 0 then 50 else b.fillRate
  let waitTimeoutMillis := if b.waitTimeoutMillis = 0 then 1000 else b.waitTimeoutMillis
  let maxIdleMillis := if b.maxIdleMillis = 0 then -1 else b.maxIdleMillis
  let maxDebtMillis := if b.maxDebtMillis = 0 then 10000 else b.maxDebtMillis
  let maxTokensPerRequest := if b.maxTokensPerRequest = 0 then fillRate else b.maxTokensPerRequest
  { b with
    size := size,
    fillRate := fillRate,
    waitTimeoutMillis := waitTimeoutMillis,
    maxIdleMillis := maxIdleMillis,
    maxDebtMillis := maxDebtMillis,
    maxTokensPerRequest := maxTokensPerRequest }

/-- Body of the per-namespace loop of `ServiceConfig.ApplyDefaults`
(config.go lines 110-137): stamp the map key as the namespace name,
reject a namespace that has both a default bucket and a dynamic bucket
template (the source panics; modelled as `Except.error`), materialise a
nil bucket map, and default every contained bucket, stamping its
resolved name and namespace back-reference. -/
def applyNamespaceDefaults (name : GoString) (ns : NamespaceConfig) :
    Except GoString NamespaceConfig :=
  if ns.defaultBucket.isSome ∧ ns.dynamicBucketTemplate.isSome then
    .error (gs "Namespace is not allowed to have a default bucket as well as allow dynamic buckets: " ++ name)
  else
    .ok { ns with
      name := name,
      defaultBucket := ns.defaultBucket.map (fun b =>
        { b.applyDefaults with name := DefaultBucketName, namespaceName := some name }),
      dynamicBucketTemplate := ns.dynamicBucketTemplate.map (fun b =>
        { b.applyDefaults with name := DynamicBucketTemplateName, namespaceName := some name }),
      buckets := some ((ns.buckets.getD []).map (fun p =>
        (p.1, { (p.2).applyDefaults with name := p.1, namespaceName := some name }))) }

/-- The namespace loop of `ServiceConfig.ApplyDefaults`, over the map's
entries; the panic on a structurally invalid namespace aborts the whole
traversal. -/
def traverseNamespaces : GoMap NamespaceConfig → Except GoString (GoMap NamespaceConfig)
  | [] => .ok []
  | (k, ns) :: rest =>
    match applyNamespaceDefaults k ns with
    | .error e => .error e
    | .ok ns' =>
      match traverseNamespaces rest with
      | .error e => .error e
      | .ok rest' => .ok ((k, ns') :: rest')

/-- `ServiceConfig.ApplyDefaults` (config.go lines 104-141): default the
global bucket (stamping the sentinel default-bucket name), then run the
per-namespace pass; a panic is modelled as `Except.error`. -/
def ServiceConfig.applyDefaults (s : ServiceConfig) : Except GoString ServiceConfig :=
  match traverseNamespaces s.namespaces with
  | .error e => .error e
  | .ok nss =>
    .ok { s with
      globalDefaultBucket := s.globalDefaultBucket.map (fun b =>
        { b.applyDefaults with name := DefaultBucketName }),
      namespaces := nss }

/-- `BucketConfig.ToProto` (config.go lines 202-211): the `namespace`
back-pointer is not serialized. -/
def BucketConfig.toProto (b : BucketConfig) : pb.BucketConfig :=
  { name := b.name,
    size := b.size,
    fillRate := b.fillRate,
    waitTimeoutMillis := b.waitTimeoutMillis,
    maxIdleMillis := b.maxIdleMillis,
    maxDebtMillis := b.maxDebtMillis,
    maxTokensPerRequest := b.maxTokensPerRequest }

/-- `bucketToProto` (config.go lines 293-299); the `name` argument is
ignored by the source, which uses `b.Name`. -/
def bucketToProto (name : GoString) (b : Option BucketConfig) : Option pb.BucketConfig :=
  b.map BucketConfig.toProto

/-- `bucketMapToProto` (config.go lines 301-308): iterating a nil map
yields the empty slice. -/
def bucketMapToProto (buckets : Option (GoMap BucketConfig)) : List pb.BucketConfig :=
  (buckets.getD []).map (fun p => (p.2).toProto)

/-- `NamespaceConfig.ToProto` (config.go lines 178-185). -/
def NamespaceConfig.toProto (n : NamespaceConfig) : pb.NamespaceConfig :=
  { defaultBucket := bucketToProto DefaultBucketName n.defaultBucket,
    dynamicBucketTemplate := bucketToProto DynamicBucketTemplateName n.dynamicBucketTemplate,
    maxDynamicBuckets := toInt32 n.maxDynamicBuckets,
    buckets := bucketMapToProto n.buckets,
    name := n.name }

/-- `namespaceMapToProto` (config.go lines 310-317): map values in
iteration order (canonical entry order in this model). -/
def namespaceMapToProto (namespaces : GoMap NamespaceConfig) : List pb.NamespaceConfig :=
  namespaces.map (fun p => (p.2).toProto)

/-- `ServiceConfig.ToProto` (config.go lines 97-102). -/
def ServiceConfig.toProto (s : ServiceConfig) : pb.ServiceConfig :=
  { version := toInt32 s.version,
    globalDefaultBucket := bucketToProto DefaultBucketName s.globalDefaultBucket,
    namespaces := namespaceMapToProto s.namespaces }

/-- `ServiceConfig.Equals` (config.go lines 89-95): both sides are
converted to their proto form and compared structurally
(`proto.Equal`). -/
def ServiceConfig.Equals (s other : ServiceConfig) : Prop :=
  s.toProto = other.toProto

/-- `BucketFromProto` (config.go lines 349-363) on a non-nil proto; the
namespace back-pointer is recorded as the owning namespace's name. -/
def BucketFromProtoV (cfg : pb.BucketConfig) (nsName : Option GoString) : BucketConfig :=
  { size := cfg.size,
    fillRate := cfg.fillRate,
    waitTimeoutMillis := cfg.waitTimeoutMillis,
    maxIdleMillis := cfg.maxIdleMillis,
    maxDebtMillis := cfg.maxDebtMillis,
    maxTokensPerRequest := cfg.maxTokensPerRequest,
    namespaceName := nsName,
    name := cfg.name }

/-- `BucketFromProto` (config.go lines 349-363): nil in, nil out. -/
def BucketFromProto (cfg : Option pb.BucketConfig) (nsName : Option GoString) : Option BucketConfig :=
  cfg.map (BucketFromProtoV · nsName)

/-- `bucketsFromProto` (config.go lines 337-347): build a map keyed by
each bucket's proto name. -/
def bucketsFromProto (cfgs : List pb.BucketConfig) (nsName : GoString) : GoMap BucketConfig :=
  cfgs.foldl (fun m c => goMapInsert m c.name (BucketFromProtoV c (some nsName))) []

/-- `NamespaceFromProto` (config.go lines 378-392): the contained
buckets' back-pointers refer to the namespace being built, whose name is
`cfg.Name`; the bucket map is always materialised (possibly empty). -/
def NamespaceFromProto (cfg : pb.NamespaceConfig) : NamespaceConfig :=
  { maxDynamicBuckets := cfg.maxDynamicBuckets,
    name := cfg.name,
    defaultBucket := BucketFromProto cfg.defaultBucket (some cfg.name),
    dynamicBucketTemplate := BucketFromProto cfg.dynamicBucketTemplate (some cfg.name),
    buckets := some (bucketsFromProto cfg.buckets cfg.name) }

/-- `namespacesFromProto` (config.go lines 365-376): build a map keyed
by each namespace's proto name. -/
def namespacesFromProto (cfgs : List pb.NamespaceConfig) : GoMap NamespaceConfig :=
  cfgs.foldl (fun m c => goMapInsert m c.name (NamespaceFromProto c)) []

/-- `FromProto` (config.go lines 319-325). -/
def FromProto (cfg : pb.ServiceConfig) : ServiceConfig :=
  { globalDefaultBucket := BucketFromProto cfg.globalDefaultBucket none,
    version := cfg.version,
    namespaces := namespacesFromProto cfg.namespaces }

end config

namespace admin

/-- `strings.HasPrefix(s, p)`. -/
def goStartsWith : GoString → GoString → Bool
  | _, [] => true
  | [], _ :: _ => false
  | c :: s, d :: p => if c = d then goStartsWith s p else false

/-- `strings.TrimPrefix(s, p)`. -/
def goTrimStart (s p : GoString) : GoString :=
  if goStartsWith s p then s.drop p.length else s

/-- `strings.Split(s, sep)` for a one-character separator: splitting the
empty string yields a single empty piece, never the empty slice. -/
def goSplit : GoString → Char → List GoString
  | [], _ => [[]]
  | c :: rest, sep =>
    if c = sep then [] :: goSplit rest sep
    else
      match goSplit rest sep with
      | [] => [[c]]
      | h :: t => (c :: h) :: t

/-- `extractNamespaceName` (admin.go lines 192-204): split the path
remainder on '/'.  The `len(parts) < 1` branch returns the sentinel
(global, default) pair; the `len(parts) < 2` branch keeps the single
segment as the namespace. -/
def extractNamespaceName (params : GoString) : GoString × GoString :=
  match goSplit params '/' with
  | [] => (GlobalNamespace, DefaultBucketName)
  | [p0] => (p0, DefaultBucketName)
  | p0 :: p1 :: _ => (p0, p1)

/-- One call against the `Administrable` store, with its arguments. -/
inductive StoreCall
  | deleteBucket (ns name : GoString)
  | addBucket (ns : GoString) (b : pb.BucketConfig)
  | updateBucket (ns : GoString) (b : pb.BucketConfig)
  | deleteNamespace (ns : GoString)
  | addNamespace (n : pb.NamespaceConfig)
  | updateNamespace (n : pb.NamespaceConfig)
deriving DecidableEq, Repr

/-- The observable HTTP outcome of one dispatched request. -/
inductive HttpResponse
  | done
  | okJson (body : pb.ServiceConfig ⊕ pb.NamespaceConfig)
  | serverError (msg : GoString)
  | notFound
deriving DecidableEq, Repr

/-- `getBucketConfig` (admin.go lines 206-214): a body-read failure is
returned, but the error of `json.Unmarshal(bytes, c)` is discarded — the
source returns `c, nil` regardless, so a malformed JSON body yields the
partially-filled struct produced by the decoder with a nil error.  The
behaviour of `encoding/json` is a parameter: `unmarshalBucket` returns
the struct as left by the decoder together with its (ignored) error. -/
def getBucketConfig (unmarshalBucket : GoString → pb.BucketConfig × Option GoString)
    (body : Except Unit GoString) : Except Unit pb.BucketConfig :=
  match body with
  | .error e => .error e
  | .ok bs => .ok (unmarshalBucket bs).1

/-- `getNamespaceConfig` (admin.go lines 216-224): same shape as
`getBucketConfig`, the `json.Unmarshal` error again discarded. -/
def getNamespaceConfig (unmarshalNamespace : GoString → pb.NamespaceConfig × Option GoString)
    (body : Except Unit GoString) : Except Unit pb.NamespaceConfig :=
  match body with
  | .error e => .error e
  | .ok bs => .ok (unmarshalNamespace bs).1

/-- `apiHandler.writeConfigs` (admin.go lines 166-190): the empty or
sentinel global namespace yields the whole `ServiceConfig` as JSON,
a present namespace key yields that `NamespaceConfig` as JSON, and an
absent key yields an error.  JSON marshalling of these proto structs is
modelled as the (injective) proto value itself. -/
def writeConfigs (cfg : config.ServiceConfig) (nspace : GoString) :
    Except GoString (pb.ServiceConfig ⊕ pb.NamespaceConfig) :=
  if nspace = [] ∨ nspace = GlobalNamespace then
    .ok (.inl cfg.toProto)
  else
    match goMapGet cfg.namespaces nspace with
    | none => .error (gs "Unable to locate namespace " ++ nspace)
    | some n => .ok (.inr n.toProto)

def apiPath : GoString := gs "/api/"

def apiNamespacePath : GoString := gs "/api/namespace/"

/-- `apiHandler.ServeHTTP` (admin.go lines 101-164).  `cfg` is the
store's current configuration (`Configs()`); `storeExec` is the store's
reaction to a mutating call — its error result, which the source never
reads; the returned list records the store calls made, in order.  Note
the source tests `strings.HasPrefix(path, "/api/")` first, so the
`"/api/namespace/"` arm is only reached by paths that do not start with
`"/api/"`. -/
def serveHTTP (cfg : config.ServiceConfig)
    (unmarshalBucket : GoString → pb.BucketConfig × Option GoString)
    (unmarshalNamespace : GoString → pb.NamespaceConfig × Option GoString)
    (storeExec : StoreCall → Option GoString)
    (method path : GoString) (body : Except Unit GoString) :
    HttpResponse × List StoreCall :=
  if goStartsWith path apiPath then
    let params := goTrimStart path apiPath
    let nspace := (extractNamespaceName params).1
    let name := (extractNamespaceName params).2
    if method = gs "DELETE" then
      let _ := storeExec (.deleteBucket nspace name)
      (.done, [.deleteBucket nspace name])
    else if method = gs "PUT" then
      match getBucketConfig unmarshalBucket body with
      | .error _ => (.serverError (gs "500 bad content"), [])
      | .ok c =>
        let _ := storeExec (.addBucket nspace c)
        (.done, [.addBucket nspace c])
    else if method = gs "POST" then
      match getBucketConfig unmarshalBucket body with
      | .error _ => (.serverError (gs "500 bad content"), [])
      | .ok c =>
        let _ := storeExec (.updateBucket nspace c)
        (.done, [.updateBucket nspace c])
    else if method = gs "GET" then
      match writeConfigs cfg nspace with
      | .error _ => (.serverError (gs "500 bad content"), [])
      | .ok b => (.okJson b, [])
    else (.notFound, [])
  else if goStartsWith path apiNamespacePath then
    let ns := goTrimStart path apiNamespacePath
    if method = gs "DELETE" then
      let _ := storeExec (.deleteNamespace ns)
      (.done, [.deleteNamespace ns])
    else if method = gs "PUT" then
      match getNamespaceConfig unmarshalNamespace body with
      | .error _ => (.serverError (gs "500 bad content"), [])
      | .ok c =>
        let _ := storeExec (.addNamespace c)
        (.done, [.addNamespace c])
    else if method = gs "POST" then
      match getNamespaceConfig unmarshalNamespace body with
      | .error _ => (.serverError (gs "500 bad content"), [])
      | .ok c =>
        let _ := storeExec (.updateNamespace c)
        (.done, [.updateNamespace c])
    else (.notFound, [])
  else (.notFound, [])

end admin

section Fixtures

/-- A store configuration with no namespaces, used as a concrete input. -/
def emptyServiceConfig : config.ServiceConfig :=
  { globalDefaultBucket := none, namespaces := [], version := 0 }

/-- The zero value of the proto `BucketConfig` struct, as allocated by
`getBucketConfig` before `json.Unmarshal` runs. -/
def zeroPbBucketConfig : pb.BucketConfig :=
  { name := [], size := 0, fillRate := 0, waitTimeoutMillis := 0,
    maxIdleMillis := 0, maxDebtMillis := 0, maxTokensPerRequest := 0 }

/-- The zero value of the proto `NamespaceConfig` struct. -/
def zeroPbNamespaceConfig : pb.NamespaceConfig :=
  { name := [], defaultBucket := none, dynamicBucketTemplate := none,
    maxDynamicBuckets := 0, buckets := [] }

/-- Behaviour of `encoding/json` on a body that is not valid JSON for a
`BucketConfig`: the struct is left at its zero value and an error is
returned (which `getBucketConfig` then discards). -/
def malformedBucketDecoder : GoString → pb.BucketConfig × Option GoString :=
  fun _ => (zeroPbBucketConfig, some (gs "invalid character"))

/-- A namespace decoder that always succeeds trivially. -/
def trivialNamespaceDecoder : GoString → pb.NamespaceConfig × Option GoString :=
  fun _ => (zeroPbNamespaceConfig, none)

/-- A store whose mutating operations all succeed. -/
def storeAlwaysOk : admin.StoreCall → Option GoString := fun _ => none

/-- A store whose mutating operations all fail. -/
def storeAlwaysFails : admin.StoreCall → Option GoString :=
  fun _ => some (gs "storage failure")

/-- An all-zero (entirely unset) bucket definition. -/
def zeroBucketConfig : config.BucketConfig :=
  { size := 0, fillRate := 0, waitTimeoutMillis := 0, maxIdleMillis := 0,
    maxDebtMillis := 0, maxTokensPerRequest := 0, namespaceName := none,
    name := gs "b" }

/-- A bucket definition with a mix of negative, positive and unset
fields. -/
def mixedBucketConfig : config.BucketConfig :=
  { size := -5, fillRate := 7, waitTimeoutMillis := 0, maxIdleMillis := 3,
    maxDebtMillis := 0, maxTokensPerRequest := 0, namespaceName := none,
    name := gs "m" }

/-- A namespace that illegally sets both a default bucket and a dynamic
bucket template. -/
def conflictedNamespaceConfig : config.NamespaceConfig :=
  { defaultBucket := some zeroBucketConfig,
    dynamicBucketTemplate := some zeroBucketConfig,
    maxDynamicBuckets := 0, buckets := some [], name := gs "n" }

/-- A service configuration containing `conflictedNamespaceConfig`. -/
def conflictedServiceConfig : config.ServiceConfig :=
  { globalDefaultBucket := none,
    namespaces := [(gs "n", conflictedNamespaceConfig)],
    version := 1 }

/-- A fully defaulted bucket owned by namespace `n`. -/
def defaultedBucketConfig : config.BucketConfig :=
  { size := 100, fillRate := 50, waitTimeoutMillis := 1000,
    maxIdleMillis := -1, maxDebtMillis := 10000, maxTokensPerRequest := 50,
    namespaceName := some (gs "n"), name := gs "b" }

/-- A defaulted namespace holding the single bucket `b`. -/
def defaultedNamespaceConfig : config.NamespaceConfig :=
  { defaultBucket := none, dynamicBucketTemplate := none,
    maxDynamicBuckets := 2,
    buckets := some [(gs "b", defaultedBucketConfig)], name := gs "n" }

/-- A valid defaulted service configuration with one namespace and one
bucket, entries keyed by their names. -/
def defaultedServiceConfig : config.ServiceConfig :=
  { globalDefaultBucket := some
      { size := 100, fillRate := 50, waitTimeoutMillis := 1000,
        maxIdleMillis := -1, maxDebtMillis := 10000,
        maxTokensPerRequest := 50, namespaceName := none,
        name := DefaultBucketName },
    namespaces := [(gs "n", defaultedNamespaceConfig)], version := 1 }

end Fixtures

section BucketDefaulting

/-- Projection lemmas for `BucketConfig.applyDefaults`. -/
theorem applyDefaults_size (b : config.BucketConfig) :
    b.applyDefaults.size = if b.size = 0 then 100 else b.size := rfl

theorem applyDefaults_fillRate (b : config.BucketConfig) :
    b.applyDefaults.fillRate = if b.fillRate = 0 then 50 else b.fillRate := rfl

theorem applyDefaults_wait (b : config.BucketConfig) :
    b.applyDefaults.waitTimeoutMillis =
      if b.waitTimeoutMillis = 0 then 1000 else b.waitTimeoutMillis := rfl

theorem applyDefaults_maxIdle (b : config.BucketConfig) :
    b.applyDefaults.maxIdleMillis =
      if b.maxIdleMillis = 0 then -1 else b.maxIdleMillis := rfl

theorem applyDefaults_maxDebt (b : config.BucketConfig) :
    b.applyDefaults.maxDebtMillis =
      if b.maxDebtMillis = 0 then 10000 else b.maxDebtMillis := rfl

theorem applyDefaults_maxTokens (b : config.BucketConfig) :
    b.applyDefaults.maxTokensPerRequest =
      if b.maxTokensPerRequest = 0 then (if b.fillRate = 0 then 50 else b.fillRate)
      else b.maxTokensPerRequest := rfl

theorem applyDefaults_name (b : config.BucketConfig) :
    b.applyDefaults.name = b.name := rfl

theorem applyDefaults_namespaceName (b : config.BucketConfig) :
    b.applyDefaults.namespaceName = b.namespaceName := rfl

/-- A bucket whose six numeric fields are all non-zero is a fixed point
of `applyDefaults`. -/
theorem applyDefaults_of_populated (b : config.BucketConfig)
    (h1 : b.size ≠ 0) (h2 : b.fillRate ≠ 0) (h3 : b.waitTimeoutMillis ≠ 0)
    (h4 : b.maxIdleMillis ≠ 0) (h5 : b.maxDebtMillis ≠ 0)
    (h6 : b.maxTokensPerRequest ≠ 0) :
    b.applyDefaults = b := by
  cases b with
  | mk s f w mi md mt nn nm =>
    simp_all [config.BucketConfig.applyDefaults]

/-- Claim C5: after `BucketConfig.ApplyDefaults`, each numeric field
that was unset (zero) holds exactly its documented default — size 100,
fill rate 50, wait timeout 1000 ms, max idle -1, max debt 10000 ms —
and an unset max-tokens-per-request equals the resulting bucket's fill
rate. -/
theorem c5_bucket_default_values (b : config.BucketConfig) :
    (b.size = 0 → b.applyDefaults.size = 100) ∧
    (b.fillRate = 0 → b.applyDefaults.fillRate = 50) ∧
    (b.waitTimeoutMillis = 0 → b.applyDefaults.waitTimeoutMillis = 1000) ∧
    (b.maxIdleMillis = 0 → b.applyDefaults.maxIdleMillis = -1) ∧
    (b.maxDebtMillis = 0 → b.applyDefaults.maxDebtMillis = 10000) ∧
    (b.maxTokensPerRequest = 0 →
      b.applyDefaults.maxTokensPerRequest = b.applyDefaults.fillRate) := by
  refine ⟨?_, ?_, ?_, ?_, ?_, ?_⟩ <;> intro h <;>
    simp [applyDefaults_size, applyDefaults_fillRate, applyDefaults_wait,
      applyDefaults_maxIdle, applyDefaults_maxDebt, applyDefaults_maxTokens, h]

/-- Witness for C5 at the all-zero bucket. -/
theorem c5_bucket_default_values_witness :
    zeroBucketConfig.applyDefaults.size = 100 ∧
    zeroBucketConfig.applyDefaults.fillRate = 50 ∧
    zeroBucketConfig.applyDefaults.waitTimeoutMillis = 1000 ∧
    zeroBucketConfig.applyDefaults.maxIdleMillis = -1 ∧
    zeroBucketConfig.applyDefaults.maxDebtMillis = 10000 ∧
    zeroBucketConfig.applyDefaults.maxTokensPerRequest =
      zeroBucketConfig.applyDefaults.fillRate := by
  have h := c5_bucket_default_values zeroBucketConfig
  exact ⟨h.1 rfl, h.2.1 rfl, h.2.2.1 rfl, h.2.2.2.1 rfl, h.2.2.2.2.1 rfl,
    h.2.2.2.2.2 rfl⟩

/-- Claim C6: defaulting a bucket is total — every numeric field of the
result is non-zero — and idempotent: applying defaults to an
already-defaulted bucket changes nothing. -/
theorem c6_defaulting_total_idempotent (b : config.BucketConfig) :
    b.applyDefaults.size ≠ 0 ∧
    b.applyDefaults.fillRate ≠ 0 ∧
    b.applyDefaults.waitTimeoutMillis ≠ 0 ∧
    b.applyDefaults.maxIdleMillis ≠ 0 ∧
    b.applyDefaults.maxDebtMillis ≠ 0 ∧
    b.applyDefaults.maxTokensPerRequest ≠ 0 ∧
    b.applyDefaults.applyDefaults = b.applyDefaults := by
  have h1 : b.applyDefaults.size ≠ 0 := by
    rw [applyDefaults_size]; split_ifs with h <;> simp_all
  have h2 : b.applyDefaults.fillRate ≠ 0 := by
    rw [applyDefaults_fillRate]; split_ifs with h <;> simp_all
  have h3 : b.applyDefaults.waitTimeoutMillis ≠ 0 := by
    rw [applyDefaults_wait]; split_ifs with h <;> simp_all
  have h4 : b.applyDefaults.maxIdleMillis ≠ 0 := by
    rw [applyDefaults_maxIdle]; split_ifs with h <;> simp_all
  have h5 : b.applyDefaults.maxDebtMillis ≠ 0 := by
    rw [applyDefaults_maxDebt]; split_ifs with h <;> simp_all
  have h6 : b.applyDefaults.maxTokensPerRequest ≠ 0 := by
    rw [applyDefaults_maxTokens]; split_ifs with h h' <;> simp_all
  exact ⟨h1, h2, h3, h4, h5, h6, applyDefaults_of_populated _ h1 h2 h3 h4 h5 h6⟩

/-- Claim C10: `BucketConfig.ApplyDefaults` touches a numeric field only
when it is exactly zero on entry — any non-zero value, negative values
included, survives unchanged, as does the name — and a field that is
zero on entry is always replaced by its default. -/
theorem c10_frame_condition (b : config.BucketConfig) :
    (b.size ≠ 0 → b.applyDefaults.size = b.size) ∧
    (b.fillRate ≠ 0 → b.applyDefaults.fillRate = b.fillRate) ∧
    (b.waitTimeoutMillis ≠ 0 →
      b.applyDefaults.waitTimeoutMillis = b.waitTimeoutMillis) ∧
    (b.maxIdleMillis ≠ 0 → b.applyDefaults.maxIdleMillis = b.maxIdleMillis) ∧
    (b.maxDebtMillis ≠ 0 → b.applyDefaults.maxDebtMillis = b.maxDebtMillis) ∧
    (b.maxTokensPerRequest ≠ 0 →
      b.applyDefaults.maxTokensPerRequest = b.maxTokensPerRequest) ∧
    b.applyDefaults.name = b.name ∧
    (b.size = 0 → b.applyDefaults.size = 100) ∧
    (b.fillRate = 0 → b.applyDefaults.fillRate = 50) ∧
    (b.waitTimeoutMillis = 0 → b.applyDefaults.waitTimeoutMillis = 1000) ∧
    (b.maxIdleMillis = 0 → b.applyDefaults.maxIdleMillis = -1) ∧
    (b.maxDebtMillis = 0 → b.applyDefaults.maxDebtMillis = 10000) ∧
    (b.maxTokensPerRequest = 0 →
      b.applyDefaults.maxTokensPerRequest = b.applyDefaults.fillRate) := by
  refine ⟨?_, ?_, ?_, ?_, ?_, ?_, applyDefaults_name b, ?_, ?_, ?_, ?_, ?_, ?_⟩ <;>
    intro h <;>
    simp [applyDefaults_size, applyDefaults_fillRate, applyDefaults_wait,
      applyDefaults_maxIdle, applyDefaults_maxDebt, applyDefaults_maxTokens, h]

/-- Witness for C10 at a bucket mixing negative, positive and unset
fields. -/
theorem c10_frame_condition_witness :
    mixedBucketConfig.applyDefaults.size = mixedBucketConfig.size ∧
    mixedBucketConfig.applyDefaults.fillRate = mixedBucketConfig.fillRate ∧
    mixedBucketConfig.applyDefaults.maxIdleMillis = mixedBucketConfig.maxIdleMillis ∧
    mixedBucketConfig.applyDefaults.waitTimeoutMillis = 1000 ∧
    mixedBucketConfig.applyDefaults.maxDebtMillis = 10000 ∧
    mixedBucketConfig.applyDefaults.maxTokensPerRequest =
      mixedBucketConfig.applyDefaults.fillRate ∧
    mixedBucketConfig.applyDefaults.name = mixedBucketConfig.name := by
  have h := c10_frame_condition mixedBucketConfig
  exact ⟨h.1 (by decide), h.2.1 (by decide), h.2.2.2.1 (by decide),
    h.2.2.2.2.2.2.2.2.2.1 (by decide), h.2.2.2.2.2.2.2.2.2.2.2.1 (by decide),
    h.2.2.2.2.2.2.2.2.2.2.2.2 (by decide), h.2.2.2.2.2.2.1⟩

end BucketDefaulting

section ServiceDefaulting

/-- If some namespace in the map has both a default bucket and a dynamic
bucket template, the namespace pass aborts with an error. -/
theorem traverseNamespaces_error (m : GoMap config.NamespaceConfig)
    (h : ∃ p ∈ m, (p.2).defaultBucket.isSome ∧ (p.2).dynamicBucketTemplate.isSome) :
    ∃ msg, config.traverseNamespaces m = .error msg := by
  induction m with
  | nil =>
    obtain ⟨p, hp, _⟩ := h
    exact absurd hp (List.not_mem_nil p)
  | cons head rest ih =>
    obtain ⟨k, ns⟩ := head
    by_cases hcond : ns.defaultBucket.isSome ∧ ns.dynamicBucketTemplate.isSome
    · refine ⟨gs "Namespace is not allowed to have a default bucket as well as allow dynamic buckets: " ++ k, ?_⟩
      simp [config.traverseNamespaces, config.applyNamespaceDefaults, hcond]
    · obtain ⟨p, hp, hps⟩ := h
      rcases List.mem_cons.mp hp with heq | hmem
      · rw [heq] at hps; exact absurd hps hcond
      · obtain ⟨e, he⟩ := ih ⟨p, hmem, hps⟩
        exact ⟨e, by simp [config.traverseNamespaces, config.applyNamespaceDefaults, hcond, he]⟩

/-- Claim C4: a `ServiceConfig` in which some namespace sets both a
default bucket and a dynamic bucket template makes `ApplyDefaults`
abort with a configuration error (the source panics) instead of
returning a defaulted configuration. -/
theorem c4_mutual_exclusivity (s : config.ServiceConfig)
    (h : ∃ p ∈ s.namespaces,
      (p.2).defaultBucket.isSome ∧ (p.2).dynamicBucketTemplate.isSome) :
    ∃ msg, s.applyDefaults = .error msg := by
  obtain ⟨e, he⟩ := traverseNamespaces_error s.namespaces h
  exact ⟨e, by simp [config.ServiceConfig.applyDefaults, he]⟩

/-- Witness for C4 at a concrete conflicted configuration. -/
theorem c4_mutual_exclusivity_witness :
    (∃ p ∈ conflictedServiceConfig.namespaces,
      (p.2).defaultBucket.isSome ∧ (p.2).dynamicBucketTemplate.isSome) ∧
    ∃ msg, conflictedServiceConfig.applyDefaults = .error msg := by
  have hex : ∃ p ∈ conflictedServiceConfig.namespaces,
      (p.2).defaultBucket.isSome ∧ (p.2).dynamicBucketTemplate.isSome :=
    ⟨(gs "n", conflictedNamespaceConfig), by decide, by decide⟩
  exact ⟨hex, c4_mutual_exclusivity conflictedServiceConfig hex⟩

end ServiceDefaulting

section DispatcherBugs

/-- Claim C1 is violated by the code: `getBucketConfig` discards the
error of `json.Unmarshal` (admin.go line 212), so a PUT whose body is
not valid JSON for a `BucketConfig` is answered with a success status
and the store IS invoked — `AddBucket` receives the zero-valued
configuration left by the failed decode.  This theorem evaluates the
dispatcher at such a request. -/
theorem c1_malformed_put_reaches_store :
    admin.serveHTTP emptyServiceConfig malformedBucketDecoder
        trivialNamespaceDecoder storeAlwaysOk (gs "PUT") (gs "/api/ns/b")
        (.ok (gs "not valid json")) =
      (.done, [.addBucket (gs "ns") zeroPbBucketConfig]) := by
  rfl

/-- Claim C2 is violated by the code: in `apiHandler.ServeHTTP` the
first branch tests `strings.HasPrefix(path, "/api/")`, which every
`/api/namespace/...` path also satisfies, so the namespace arm is
unreachable.  A DELETE on `/api/namespace/foo` is routed as a bucket
operation — `DeleteBucket("namespace", "foo")` — never
`DeleteNamespace("foo")`. -/
theorem c2_namespace_route_shadowed :
    admin.serveHTTP emptyServiceConfig malformedBucketDecoder
        trivialNamespaceDecoder storeAlwaysOk (gs "DELETE")
        (gs "/api/namespace/foo") (.ok []) =
      (.done, [.deleteBucket (gs "namespace") (gs "foo")]) := by
  rfl

/-- Claim C3 is violated by the code on the empty remainder:
`strings.Split("", "/")` yields a one-element slice containing the
empty string, so the `len(parts) < 1` fallback to the sentinel global
namespace is unreachable and resolution of `""` yields the empty
namespace name, not `GlobalNamespace`. -/
theorem c3_empty_path_resolution :
    admin.extractNamespaceName [] = ([], DefaultBucketName) ∧
    ([] : GoString) ≠ GlobalNamespace := by
  decide

end DispatcherBugs

section DispatcherBehaviour

/-- A well-formed namespace used in dispatcher witnesses. -/
def sampleNamespaceConfig : config.NamespaceConfig :=
  { defaultBucket := none, dynamicBucketTemplate := none,
    maxDynamicBuckets := 0, buckets := some [], name := gs "n" }

/-- A store configuration holding the single namespace `n`. -/
def sampleServiceConfig : config.ServiceConfig :=
  { globalDefaultBucket := none,
    namespaces := [(gs "n", sampleNamespaceConfig)], version := 0 }

/-- Claim C8: on a GET over a bucket address, an empty or sentinel
global resolved namespace returns the whole `ServiceConfig` as JSON with
a success status; a namespace present in the store returns that
`NamespaceConfig` as JSON; an absent namespace key is answered with a
generic server error (status 500). -/
theorem c8_get_semantics (cfg : config.ServiceConfig)
    (ub : GoString → pb.BucketConfig × Option GoString)
    (un : GoString → pb.NamespaceConfig × Option GoString)
    (se : admin.StoreCall → Option GoString)
    (path : GoString) (body : Except Unit GoString)
    (hp : admin.goStartsWith path admin.apiPath = true) :
    ((admin.extractNamespaceName (admin.goTrimStart path admin.apiPath)).1 = [] ∨
        (admin.extractNamespaceName (admin.goTrimStart path admin.apiPath)).1 =
          GlobalNamespace →
      admin.serveHTTP cfg ub un se (gs "GET") path body =
        (.okJson (.inl cfg.toProto), [])) ∧
    (∀ n : config.NamespaceConfig,
      (admin.extractNamespaceName (admin.goTrimStart path admin.apiPath)).1 ≠ [] →
      (admin.extractNamespaceName (admin.goTrimStart path admin.apiPath)).1 ≠
        GlobalNamespace →
      goMapGet cfg.namespaces
        (admin.extractNamespaceName (admin.goTrimStart path admin.apiPath)).1 = some n →
      admin.serveHTTP cfg ub un se (gs "GET") path body =
        (.okJson (.inr n.toProto), [])) ∧
    ((admin.extractNamespaceName (admin.goTrimStart path admin.apiPath)).1 ≠ [] →
      (admin.extractNamespaceName (admin.goTrimStart path admin.apiPath)).1 ≠
        GlobalNamespace →
      goMapGet cfg.namespaces
        (admin.extractNamespaceName (admin.goTrimStart path admin.apiPath)).1 = none →
      admin.serveHTTP cfg ub un se (gs "GET") path body =
        (.serverError (gs "500 bad content"), [])) := by
  have hd : ¬ (gs "GET" = gs "DELETE") := by decide
  have hput : ¬ (gs "GET" = gs "PUT") := by decide
  have hpost : ¬ (gs "GET" = gs "POST") := by decide
  refine ⟨?_, ?_, ?_⟩
  · intro h
    simp [admin.serveHTTP, hp, hd, hput, hpost, admin.writeConfigs, if_pos h]
  · intro n h1 h2 h3
    have hcond : ¬ ((admin.extractNamespaceName (admin.goTrimStart path admin.apiPath)).1 = [] ∨
        (admin.extractNamespaceName (admin.goTrimStart path admin.apiPath)).1 = GlobalNamespace) := by
      rintro (hc | hc) <;> contradiction
    simp [admin.serveHTTP, hp, hd, hput, hpost, admin.writeConfigs, if_neg hcond, h3]
  · intro h1 h2 h3
    have hcond : ¬ ((admin.extractNamespaceName (admin.goTrimStart path admin.apiPath)).1 = [] ∨
        (admin.extractNamespaceName (admin.goTrimStart path admin.apiPath)).1 = GlobalNamespace) := by
      rintro (hc | hc) <;> contradiction
    simp [admin.serveHTTP, hp, hd, hput, hpost, admin.writeConfigs, if_neg hcond, h3]

/-- Witness for C8: a GET on `/api/n/b` against the sample store returns
namespace `n` as JSON. -/
theorem c8_get_semantics_witness :
    admin.serveHTTP sampleServiceConfig malformedBucketDecoder
        trivialNamespaceDecoder storeAlwaysOk (gs "GET") (gs "/api/n/b")
        (.ok []) =
      (.okJson (.inr sampleNamespaceConfig.toProto), []) :=
  (c8_get_semantics sampleServiceConfig malformedBucketDecoder
      trivialNamespaceDecoder storeAlwaysOk (gs "/api/n/b") (.ok [])
      (by decide)).2.1 sampleNamespaceConfig (by decide) (by decide) (by decide)

/-- Claim C9: for DELETE, PUT and POST over a bucket address with a
successfully decoded body, the outcome the dispatcher hands the HTTP
caller does not depend on whether the store operation succeeds or
fails — the source never reads the error returned by
DeleteBucket/AddBucket/UpdateBucket. -/
theorem c9_store_errors_swallowed (cfg : config.ServiceConfig)
    (ub : GoString → pb.BucketConfig × Option GoString)
    (un : GoString → pb.NamespaceConfig × Option GoString)
    (s1 s2 : admin.StoreCall → Option GoString)
    (method path : GoString) (body : Except Unit GoString)
    (hm : method = gs "DELETE" ∨ method = gs "PUT" ∨ method = gs "POST")
    (hp : admin.goStartsWith path admin.apiPath = true)
    (hb : (method = gs "PUT" ∨ method = gs "POST") →
      ∃ c, admin.getBucketConfig ub body = .ok c) :
    admin.serveHTTP cfg ub un s1 method path body =
      admin.serveHTTP cfg ub un s2 method path body := rfl

/-- Witness for C9: a DELETE against a store that succeeds and one that
fails produce the same dispatcher outcome. -/
theorem c9_store_errors_swallowed_witness :
    admin.serveHTTP emptyServiceConfig malformedBucketDecoder
        trivialNamespaceDecoder storeAlwaysOk (gs "DELETE") (gs "/api/x/y")
        (.ok []) =
      admin.serveHTTP emptyServiceConfig malformedBucketDecoder
        trivialNamespaceDecoder storeAlwaysFails (gs "DELETE") (gs "/api/x/y")
        (.ok []) :=
  c9_store_errors_swallowed emptyServiceConfig malformedBucketDecoder
    trivialNamespaceDecoder storeAlwaysOk storeAlwaysFails (gs "DELETE")
    (gs "/api/x/y") (.ok []) (Or.inl rfl) (by decide)
    (fun h => absurd h (by decide))

end DispatcherBehaviour

section RoundTrip

theorem toInt32_idem (v : Int) : toInt32 (toInt32 v) = toInt32 v := by
  unfold toInt32
  rw [Int.sub_add_cancel, Int.emod_emod_of_dvd _ dvd_rfl]

/-- Inserting an absent key appends the new entry. -/
theorem goMapInsert_notMem {α : Type} (m : GoMap α) (k : GoString) (v : α)
    (h : k ∉ m.map Prod.fst) : goMapInsert m k v = m ++ [(k, v)] := by
  induction m with
  | nil => rfl
  | cons p rest ih =>
    obtain ⟨k', v'⟩ := p
    have hk : ¬ (k' = k) := fun he => h (List.mem_cons.mpr (Or.inl he.symm))
    have h' : k ∉ rest.map Prod.fst := fun hm => h (List.mem_cons.mpr (Or.inr hm))
    simp [goMapInsert, hk, ih h']

/-- Building a Go map by inserting entries with pairwise distinct keys
reproduces the entry sequence. -/
theorem foldl_goMapInsert {α β : Type} (f : α → GoString) (g : α → β)
    (cs : List α) :
    ∀ init : GoMap β, (cs.map f).Nodup →
      (∀ c ∈ cs, f c ∉ init.map Prod.fst) →
      cs.foldl (fun m c => goMapInsert m (f c) (g c)) init =
        init ++ cs.map (fun c => (f c, g c)) := by
  induction cs with
  | nil => intro init _ _; simp
  | cons c cs ih =>
    intro init hnd hdisj
    rw [List.foldl_cons,
      goMapInsert_notMem init (f c) (g c) (hdisj c (List.mem_cons_self c cs))]
    rw [List.map_cons, List.nodup_cons] at hnd
    have hdisj' : ∀ c' ∈ cs, f c' ∉ (init ++ [(f c, g c)]).map Prod.fst := by
      intro c' hc' hmem
      rw [List.map_append] at hmem
      rcases List.mem_append.mp hmem with hmem | hmem
      · exact hdisj c' (List.mem_cons_of_mem c hc') hmem
      · simp at hmem
        exact hnd.1 (hmem ▸ List.mem_map_of_mem f hc')
    rw [ih (init ++ [(f c, g c)]) hnd.2 hdisj']
    simp

/-- With pairwise distinct bucket names, `bucketsFromProto` reproduces
the proto sequence as map entries keyed by name. -/
theorem bucketsFromProto_eq (cs : List pb.BucketConfig) (nsName : GoString)
    (h : (cs.map pb.BucketConfig.name).Nodup) :
    config.bucketsFromProto cs nsName =
      cs.map (fun c => (c.name, config.BucketFromProtoV c (some nsName))) := by
  have := foldl_goMapInsert (fun c : pb.BucketConfig => c.name)
    (fun c => config.BucketFromProtoV c (some nsName)) cs [] h
    (by intro c _ hmem; simp at hmem)
  simpa [config.bucketsFromProto] using this

/-- With pairwise distinct namespace names, `namespacesFromProto`
reproduces the proto sequence as map entries keyed by name. -/
theorem namespacesFromProto_eq (cs : List pb.NamespaceConfig)
    (h : (cs.map pb.NamespaceConfig.name).Nodup) :
    config.namespacesFromProto cs =
      cs.map (fun c => (c.name, config.NamespaceFromProto c)) := by
  have := foldl_goMapInsert (fun c : pb.NamespaceConfig => c.name)
    config.NamespaceFromProto cs [] h
    (by intro c _ hmem; simp at hmem)
  simpa [config.namespacesFromProto] using this

/-- Converting a proto bucket into the model and back restores it
exactly; the back-reference is dropped again on the way out. -/
theorem bucket_roundtrip (c : pb.BucketConfig) (nsName : Option GoString) :
    (config.BucketFromProtoV c nsName).toProto = c := rfl

/-- A proto namespace whose bucket names are distinct and whose
`max_dynamic_buckets` value is already in `int32` range converts into
the model and back without change. -/
theorem namespaceFromProto_toProto (c : pb.NamespaceConfig)
    (hnd : (c.buckets.map pb.BucketConfig.name).Nodup)
    (hrange : toInt32 c.maxDynamicBuckets = c.maxDynamicBuckets) :
    (config.NamespaceFromProto c).toProto = c := by
  obtain ⟨nm, db, dbt, mdb, bks⟩ := c
  simp only [config.NamespaceFromProto, config.NamespaceConfig.toProto,
    config.bucketMapToProto, config.bucketToProto, config.BucketFromProto,
    Option.getD_some] at *
  rw [bucketsFromProto_eq bks nm hnd, List.map_map]
  rw [pb.NamespaceConfig.mk.injEq]
  refine ⟨rfl, ?_, ?_, hrange, ?_⟩
  · cases db <;> rfl
  · cases dbt <;> rfl
  · exact (List.map_congr_left
      (fun b _ => bucket_roundtrip b (some nm))).trans (List.map_id' bks)

/-- Claim C7: for a valid defaulted `ServiceConfig` — namespace entries
keyed by their names, bucket entries keyed by their names, keys without
duplicates — converting to the wire form and back (`FromProto` after
`ToProto`, which is what `Unmarshal` after `Marshal` computes) yields a
configuration `Equals`-equal to the original; the bucket-to-namespace
back-reference is reconstructed by `FromProto`, never carried on the
wire. -/
theorem c7_wire_roundtrip (s : config.ServiceConfig)
    (h1 : ∀ p ∈ s.namespaces, (p.2).name = p.1)
    (h2 : (s.namespaces.map Prod.fst).Nodup)
    (h3 : ∀ p ∈ s.namespaces, ∀ q ∈ ((p.2).buckets.getD []), (q.2).name = q.1)
    (h4 : ∀ p ∈ s.namespaces, (((p.2).buckets.getD []).map Prod.fst).Nodup) :
    (config.FromProto s.toProto).Equals s := by
  show (config.FromProto s.toProto).toProto = s.toProto
  have hnd : ((s.namespaces.map (fun p => (p.2).toProto)).map
      pb.NamespaceConfig.name).Nodup := by
    rw [List.map_map]
    have e : s.namespaces.map
          (pb.NamespaceConfig.name ∘ fun p => (p.2).toProto) =
        s.namespaces.map Prod.fst :=
      List.map_congr_left (fun p hp => h1 p hp)
    rw [e]; exact h2
  have hns : config.namespacesFromProto
        (s.namespaces.map (fun p => (p.2).toProto)) =
      (s.namespaces.map (fun p => (p.2).toProto)).map
        (fun c => (c.name, config.NamespaceFromProto c)) :=
    namespacesFromProto_eq _ hnd
  have hbnd : ∀ p ∈ s.namespaces,
      (((p.2).toProto).buckets.map pb.BucketConfig.name).Nodup := by
    intro p hp
    show (((((p.2).buckets.getD []).map (fun q => (q.2).toProto)).map
        pb.BucketConfig.name)).Nodup
    rw [List.map_map]
    have e : ((p.2).buckets.getD []).map
          (pb.BucketConfig.name ∘ fun q => (q.2).toProto) =
        ((p.2).buckets.getD []).map Prod.fst :=
      List.map_congr_left (fun q hq => h3 p hp q hq)
    rw [e]; exact h4 p hp
  simp only [config.FromProto, config.ServiceConfig.toProto,
    config.namespaceMapToProto, config.bucketToProto,
    config.BucketFromProto, hns, List.map_map]
  simp only [pb.ServiceConfig.mk.injEq]
  refine ⟨?_, ?_, toInt32_idem s.version⟩
  · cases s.globalDefaultBucket <;> rfl
  · exact List.map_congr_left (fun p hp =>
      namespaceFromProto_toProto ((p.2).toProto) (hbnd p hp)
        (toInt32_idem (p.2).maxDynamicBuckets))

/-- Witness for C7 at a one-namespace, one-bucket configuration. -/
theorem c7_wire_roundtrip_witness :
    (config.FromProto defaultedServiceConfig.toProto).Equals
      defaultedServiceConfig :=
  c7_wire_roundtrip defaultedServiceConfig (by decide) (by decide)
    (by decide) (by decide)

end RoundTrip
